import Mathlib

/-!
Verification development for the qq_vrc_binding_bot repository.

We give a shallow embedding, in Lean, of the parts of the code that the
specification's testable properties talk about:

* the SQLite binding store (`src/src/core/database/sqlite_db.py`):
  tables `global_bindings`, per-group `group_<gid>_bindings`,
  `verifications`, `global_verifications`; the operations `bind_user`,
  `unbind_user_from_group`, `expire_outdated_verifications`, and the
  `elapsed` column computed by `get_verification`;
* the `safe_db_operation` wrapper (`src/src/core/database/utils.py`)
  and the per-operation exception behaviour of the store;
* the group handler (`src/handlers/qq_handler/group_handler.py` and
  `src/src/handlers/qq_handler/group_handler.py`): join-request
  processing with flag de-duplication, the pending-join cache, and the
  security-policy checks;
* the event router (`src/core/event_router.py`);
* the gateway websocket manager (`src/api/qq/websocket.py`).

Timestamps are modelled as integer (epoch-second) or rational instants;
SQLite `TEXT` timestamps keep their string form, and SQLite's BINARY
collation on ASCII text is Lean's lexicographic `String` order.
-/

namespace QVB

/-! ## SQLite store: rows and state (src/src/core/database/sqlite_db.py) -/

/-- A row of `global_bindings`:
`qq_id INTEGER PRIMARY KEY, vrc_user_id TEXT NOT NULL UNIQUE,
vrc_display_name TEXT NOT NULL, bind_time TIMESTAMP DEFAULT CURRENT_TIMESTAMP,
bind_type TEXT DEFAULT 'manual', origin_group_id INTEGER`. -/
structure GlobalBindingRow where
  qq_id : Int
  vrc_user_id : String
  vrc_display_name : String
  bind_time : String
  bind_type : String
  origin_group_id : Option Int
deriving Repr, DecidableEq

/-- A row of a per-group table `group_<gid>_bindings`:
`qq_id INTEGER PRIMARY KEY, vrc_user_id, vrc_display_name, bind_time`. -/
structure GroupBindingRow where
  qq_id : Int
  vrc_user_id : String
  vrc_display_name : String
  bind_time : String
deriving Repr, DecidableEq

/-- A row of `verifications`:
`qq_id INTEGER PRIMARY KEY, vrc_user_id, vrc_display_name, code,
created_at TIMESTAMP DEFAULT CURRENT_TIMESTAMP, is_expired BOOLEAN DEFAULT 0`.
`created_at` is the SQLite `TEXT` value "YYYY-MM-DD HH:MM:SS" that
`CURRENT_TIMESTAMP` produces. -/
structure VerificationRow where
  qq_id : Int
  vrc_user_id : String
  vrc_display_name : String
  code : String
  created_at : String
  is_expired : Bool
deriving Repr, DecidableEq

/-- A row of `global_verifications`:
`qq_id INTEGER PRIMARY KEY, vrc_user_id, vrc_display_name, verified_at,
verified_by TEXT DEFAULT 'system'`. -/
structure GlobalVerificationRow where
  qq_id : Int
  vrc_user_id : String
  vrc_display_name : String
  verified_at : String
  verified_by : String
deriving Repr, DecidableEq

/-- The persistent state of the SQLite backend.  Per-group tables are
created lazily by `_ensure_group_table`, hence an association list from
group id to table contents (`none` in the list means the table does not
exist yet; lookup is by first match, and group ids occur at most once
because tables are only ever added by `_ensure_group_table`). -/
structure SQLiteState where
  global_bindings : List GlobalBindingRow
  group_tables : List (Int × List GroupBindingRow)
  verifications : List VerificationRow
  global_verifications : List GlobalVerificationRow
deriving Repr, DecidableEq

/-- First-match lookup in the catalogue of per-group tables. -/
def lookupTable : List (Int × List GroupBindingRow) → Int → Option (List GroupBindingRow)
  | [], _ => none
  | (k, v) :: t, g => if k = g then some v else lookupTable t g

/-- Look up the per-group table for `gid` (`none` = table not created). -/
def findGroupTable (s : SQLiteState) (gid : Int) : Option (List GroupBindingRow) :=
  lookupTable s.group_tables gid

/-- Replace the contents of the (existing) table for `gid`. -/
def writeGroupTable : List (Int × List GroupBindingRow) → Int → List GroupBindingRow →
    List (Int × List GroupBindingRow)
  | [], _, _ => []
  | (k, v) :: t, g, rows =>
    if k = g then (k, rows) :: writeGroupTable t g rows
    else (k, v) :: writeGroupTable t g rows

/-- `_ensure_group_table`: `CREATE TABLE IF NOT EXISTS group_<gid>_bindings`. -/
def ensure_group_table (s : SQLiteState) (gid : Int) : SQLiteState :=
  match findGroupTable s gid with
  | some _ => s
  | none => { s with group_tables := s.group_tables ++ [(gid, [])] }

/-- SQLite `INSERT OR REPLACE` into `global_bindings`: the table has two
uniqueness constraints (`qq_id` PRIMARY KEY and `vrc_user_id UNIQUE`);
`OR REPLACE` first deletes every pre-existing row that conflicts with the
new row on either constraint, then inserts the new row. -/
def insertOrReplaceGlobal (rows : List GlobalBindingRow) (r : GlobalBindingRow) :
    List GlobalBindingRow :=
  rows.filter (fun x => !(x.qq_id == r.qq_id || x.vrc_user_id == r.vrc_user_id)) ++ [r]

/-- SQLite `INSERT OR REPLACE` into a per-group table (only `qq_id` is
constrained there). -/
def insertOrReplaceGroup (rows : List GroupBindingRow) (r : GroupBindingRow) :
    List GroupBindingRow :=
  rows.filter (fun x => !(x.qq_id == r.qq_id)) ++ [r]

/-- Python truthiness of the optional `group_id` argument
(`if group_id:` is false for `None` and for `0`). -/
def pyTruthyGroupId : Option Int → Bool
  | none => false
  | some g => g != 0

/-- `SQLiteDatabase.bind_user(qq_id, vrc_user_id, vrc_display_name,
bind_type="manual", group_id=None)` on a healthy database
(src/src/core/database/sqlite_db.py, lines 102-135).  `nowStr` stands for
the `CURRENT_TIMESTAMP` default filled in for `bind_time`.  Steps:
read the old row's `origin_group_id` to preserve it, `INSERT OR REPLACE`
into `global_bindings`, and if `group_id` is truthy, ensure the group
table and `INSERT OR REPLACE` there too; returns `True`. -/
def bind_user (s : SQLiteState) (qq_id : Int) (vrc_user_id vrc_display_name : String)
    (bind_type : String) (group_id : Option Int) (nowStr : String) :
    SQLiteState × Bool :=
  let prev := s.global_bindings.find? (fun r => r.qq_id == qq_id)
  let final_origin_group_id : Option Int :=
    match prev with
    | some r => match r.origin_group_id with
      | some o => some o
      | none => group_id
    | none => group_id
  let newRow : GlobalBindingRow :=
    { qq_id := qq_id, vrc_user_id := vrc_user_id, vrc_display_name := vrc_display_name,
      bind_time := nowStr, bind_type := bind_type, origin_group_id := final_origin_group_id }
  let s1 := { s with global_bindings := insertOrReplaceGlobal s.global_bindings newRow }
  let s2 :=
    if pyTruthyGroupId group_id then
      match group_id with
      | some g =>
        let s' := ensure_group_table s1 g
        let tbl := (findGroupTable s' g).getD []
        let groupRow : GroupBindingRow :=
          { qq_id := qq_id, vrc_user_id := vrc_user_id,
            vrc_display_name := vrc_display_name, bind_time := nowStr }
        { s' with group_tables := writeGroupTable s'.group_tables g (insertOrReplaceGroup tbl groupRow) }
      | none => s1
    else s1
  (s2, true)

/-- `SQLiteDatabase.unbind_user_from_group(group_id, qq_id)` on a healthy
database (src/src/core/database/sqlite_db.py, lines 137-157): ensure the
group table, `DELETE FROM group_<gid>_bindings WHERE qq_id = ?`
(remembering the row count), then
`UPDATE global_bindings SET origin_group_id = NULL
WHERE qq_id = ? AND origin_group_id = ?`; returns `deleted_rows > 0`. -/
def unbind_user_from_group (s : SQLiteState) (group_id qq_id : Int) :
    SQLiteState × Bool :=
  let s1 := ensure_group_table s group_id
  let tbl := (findGroupTable s1 group_id).getD []
  let tbl1 := tbl.filter (fun r => !(r.qq_id == qq_id))
  let deleted := tbl.length - tbl1.length
  let globals1 := s1.global_bindings.map (fun r =>
    if r.qq_id == qq_id && r.origin_group_id == some group_id then
      { r with origin_group_id := none }
    else r)
  ({ s1 with group_tables := writeGroupTable s1.group_tables group_id tbl1,
             global_bindings := globals1 }, decide (0 < deleted))

/-- Python `str()` of a float with zero fractional part, as produced by
`str(cutoff_time)` in `expire_outdated_verifications` when the clock and
TTL are whole seconds: `str(1760313300.0) = "1760313300.0"`. -/
def pyFloatDotZero (n : Int) : String := toString n ++ ".0"

/-- Bytewise-lexicographic order on character lists: SQLite's BINARY
collation compares `TEXT` values with `memcmp`; on ASCII text (all the
compared values here) that is exactly this code-point comparison. -/
def textLtList : List Char → List Char → Bool
  | [], [] => false
  | [], _ :: _ => true
  | _ :: _, [] => false
  | a :: as, b :: bs =>
    if a.toNat < b.toNat then true
    else if b.toNat < a.toNat then false
    else textLtList as bs

/-- SQLite `TEXT < TEXT` under the default BINARY collation. -/
def sqliteTextLt (a b : String) : Bool := textLtList a.toList b.toList

/-- `SQLiteDatabase.expire_outdated_verifications(expiry_seconds)` on a
healthy database (src/src/core/database/sqlite_db.py, lines 304-318),
evaluated at whole-second instant `now`:
`cutoff_time = time.time() - expiry_seconds` and then
`UPDATE verifications SET code = ?, is_expired = 1
WHERE created_at < ? AND is_expired = 0` with parameter
`str(cutoff_time)`.  `created_at` is a `TEXT` column, so the SQLite `<`
here is the BINARY-collation comparison between the stored
"YYYY-MM-DD HH:MM:SS" string and the decimal string of the epoch cutoff.
Returns the updated state and `cursor.rowcount`. -/
def expire_outdated_verifications (s : SQLiteState) (now expiry_seconds : Int) :
    SQLiteState × Int :=
  let cutoffStr := pyFloatDotZero (now - expiry_seconds)
  let hit := fun (r : VerificationRow) => sqliteTextLt r.created_at cutoffStr && !r.is_expired
  let rows := s.verifications.map (fun r =>
    if hit r then { r with code := "Ciallo～(∠・ω< )⌒★", is_expired := true } else r)
  ({ s with verifications := rows }, (s.verifications.countP hit : Int))

/-- Digits of a fixed-width decimal field. -/
def natOfDigits (cs : List Char) : Nat :=
  cs.foldl (fun a c => a * 10 + (c.toNat - 48)) 0

/-- Days since 1970-01-01 of a civil date (proleptic Gregorian calendar,
valid for years ≥ 1; the standard era/year-of-era computation SQLite's
date machinery is equivalent to on this range). -/
def daysFromCivil (y m d : Nat) : Int :=
  let y2 := if m ≤ 2 then y - 1 else y
  let era := y2 / 400
  let yoe := y2 - era * 400
  let mp := (m + 9) % 12
  let doy := (153 * mp + 2) / 5 + d - 1
  let doe := yoe * 365 + yoe / 4 - yoe / 100 + doy
  (era * 146097 + doe : Int) - 719468

/-- SQLite `strftime('%s', t)` for a `TEXT` timestamp
"YYYY-MM-DD HH:MM:SS" (the format `CURRENT_TIMESTAMP` writes): the UTC
epoch seconds of that instant.  This is the quantity
`SQLiteDatabase.get_verification` exposes through its `elapsed` column
(`strftime('%s','now') - strftime('%s', created_at)`). -/
def sqliteStrftimeS (t : String) : Int :=
  let cs := t.toList
  let field := fun (i n : Nat) => natOfDigits ((cs.drop i).take n)
  daysFromCivil (field 0 4) (field 5 2) (field 8 2) * 86400 +
    (field 11 2) * 3600 + (field 14 2) * 60 + (field 17 2)

/-- The `elapsed` column of `SQLiteDatabase.get_verification` for row `r`
read at epoch instant `now`. -/
def verificationElapsed (r : VerificationRow) (now : Int) : Int :=
  now - sqliteStrftimeS r.created_at

/-! ## Helper lemmas on the lazily-created group tables -/

theorem lookupTable_append_single_ne {t : List (Int × List GroupBindingRow)} {g h : Int}
    (hne : h ≠ g) (rows : List GroupBindingRow) :
    lookupTable (t ++ [(g, rows)]) h = lookupTable t h := by
  induction t with
  | nil => simp [lookupTable, Ne.symm hne]
  | cons a t ih =>
    cases a with
    | mk k v =>
      by_cases hk : k = h
      · simp [lookupTable, hk]
      · simp only [List.cons_append, lookupTable, if_neg hk]
        exact ih

theorem findGroupTable_ensure_ne {s : SQLiteState} {g h : Int} (hne : h ≠ g) :
    findGroupTable (ensure_group_table s g) h = findGroupTable s h := by
  unfold ensure_group_table
  cases hfind : findGroupTable s g with
  | some tbl => rfl
  | none =>
    simp only [findGroupTable]
    exact lookupTable_append_single_ne hne []

theorem lookupTable_append_single_self {t : List (Int × List GroupBindingRow)} {g : Int}
    (hnone : lookupTable t g = none) (rows : List GroupBindingRow) :
    lookupTable (t ++ [(g, rows)]) g = some rows := by
  induction t with
  | nil => simp [lookupTable]
  | cons a t ih =>
    cases a with
    | mk k v =>
      by_cases hk : k = g
      · rw [lookupTable, if_pos hk] at hnone
        exact absurd hnone (by simp)
      · rw [lookupTable, if_neg hk] at hnone
        rw [List.cons_append, lookupTable, if_neg hk]
        exact ih hnone

theorem findGroupTable_ensure_self (s : SQLiteState) (g : Int) :
    findGroupTable (ensure_group_table s g) g = some ((findGroupTable s g).getD []) := by
  unfold ensure_group_table
  cases hfind : findGroupTable s g with
  | some tbl => simpa using hfind
  | none =>
    simp only [findGroupTable, Option.getD_none]
    unfold findGroupTable at hfind
    exact lookupTable_append_single_self hfind []

theorem lookupTable_write_ne {t : List (Int × List GroupBindingRow)} {g h : Int}
    (hne : h ≠ g) (rows : List GroupBindingRow) :
    lookupTable (writeGroupTable t g rows) h = lookupTable t h := by
  induction t with
  | nil => simp [writeGroupTable]
  | cons a t ih =>
    cases a with
    | mk k v =>
      by_cases hk : k = g
      · have hkh : ¬ k = h := by rw [hk]; exact Ne.symm hne
        rw [writeGroupTable, if_pos hk]
        rw [lookupTable, if_neg hkh, lookupTable, if_neg hkh]
        exact ih
      · rw [writeGroupTable, if_neg hk]
        by_cases hkh : k = h
        · rw [lookupTable, if_pos hkh, lookupTable, if_pos hkh]
        · rw [lookupTable, if_neg hkh, lookupTable, if_neg hkh]
          exact ih

theorem lookupTable_write_self {t : List (Int × List GroupBindingRow)} {g : Int}
    {r0 : List GroupBindingRow} (hfound : lookupTable t g = some r0)
    (rows : List GroupBindingRow) :
    lookupTable (writeGroupTable t g rows) g = some rows := by
  induction t with
  | nil => simp [lookupTable] at hfound
  | cons a t ih =>
    cases a with
    | mk k v =>
      by_cases hk : k = g
      · rw [writeGroupTable, if_pos hk, lookupTable, if_pos hk]
      · rw [lookupTable, if_neg hk] at hfound
        rw [writeGroupTable, if_neg hk, lookupTable, if_neg hk]
        exact ih hfound

/-! ## Store operations as seen through `safe_db_operation`
(src/src/core/database/sqlite_db.py and src/src/core/database/utils.py) -/

/-- The public operations of `SQLiteDatabase`, one constructor per method. -/
inductive StoreOp where
  | bind_user | unbind_user_from_group | unbind_user_globally
  | get_qq_by_vrc_id | get_binding | get_all_bindings
  | get_group_bindings | get_group_member_binding
  | add_verification | get_verification | delete_verification
  | mark_verification_expired | expire_outdated_verifications
  | set_group_vrc_group_id | get_group_vrc_group_id | delete_group_vrc_group_id
  | search_global_bindings | set_group_setting | get_group_setting
  | add_global_verification | get_global_verification
  | get_group_binding_with_global_fallback | search_bindings | get_pending_vrc_info
deriving Repr, DecidableEq

/-- Python values a store method can hand back to a caller. -/
inductive StoreValue where
  | vBool : Bool → StoreValue
  | vNone : StoreValue
  | vInt : Int → StoreValue
  | vStr : String → StoreValue
  | vList : List StoreValue → StoreValue
deriving Repr

/-- Whether the underlying SQLite connection is working for a given
attempt; `failing msg` means any cursor/execute call raises an exception
whose `str()` is `msg`. -/
inductive DbHealth where
  | healthy : DbHealth
  | failing : String → DbHealth
deriving Repr, DecidableEq

/-- One call of a `SQLiteDatabase` method, with the source's per-method
`try/except` structure.  On a healthy database the method returns its
(data-dependent, here abstract) result `okVal op`.  On a failing database:
methods whose whole body sits in `try/except` return their `except`
sentinel (`False`, `None`, `[]`, or `0`); the methods written without a
`try/except` — `get_qq_by_vrc_id`, `get_binding`, `get_all_bindings`,
`get_verification`, `search_global_bindings` (and `search_bindings`,
which just delegates to it) — let the exception propagate.
`get_group_binding_with_global_fallback` first calls two guarded getters
(which swallow the failure and return `None`) and then the unguarded
`get_binding`, so it propagates too. -/
def runStoreOp (okVal : StoreOp → StoreValue) (op : StoreOp) (h : DbHealth) :
    Except String StoreValue :=
  match h with
  | .healthy => .ok (okVal op)
  | .failing msg =>
    match op with
    | .bind_user => .ok (.vBool false)
    | .unbind_user_from_group => .ok (.vBool false)
    | .unbind_user_globally => .ok (.vBool false)
    | .get_group_bindings => .ok (.vList [])
    | .get_group_member_binding => .ok .vNone
    | .add_verification => .ok (.vBool false)
    | .delete_verification => .ok (.vBool false)
    | .mark_verification_expired => .ok (.vBool false)
    | .expire_outdated_verifications => .ok (.vInt 0)
    | .set_group_vrc_group_id => .ok (.vBool false)
    | .get_group_vrc_group_id => .ok .vNone
    | .delete_group_vrc_group_id => .ok (.vBool false)
    | .set_group_setting => .ok (.vBool false)
    | .get_group_setting => .ok .vNone
    | .add_global_verification => .ok (.vBool false)
    | .get_global_verification => .ok .vNone
    | .get_pending_vrc_info => .ok .vNone
    | .get_qq_by_vrc_id => .error msg
    | .get_binding => .error msg
    | .get_all_bindings => .error msg
    | .get_verification => .error msg
    | .search_global_bindings => .error msg
    | .search_bindings => .error msg
    | .get_group_binding_with_global_fallback => .error msg

/-- Substring test (`keyword in error_msg` in Python). -/
def strContains (s pat : String) : Bool := (s.splitOn pat).length != 1

/-- The retry-keyword test of `safe_db_operation`:
`any(keyword in error_msg.lower() for keyword in
["read of closed file", "connection", "cursor", "closed"])`. -/
def hasRetryKeyword (msg : String) : Bool :=
  let m := msg.toLower
  strContains m "read of closed file" || strContains m "connection" ||
    strContains m "cursor" || strContains m "closed"

/-- `safe_db_operation(db_func, *args)` (src/src/core/database/utils.py):
`for attempt in range(3)` unrolled.  A successful attempt returns its
value; a raised exception is caught, retried (after a backoff sleep) when
the attempt is not the last and the message carries a retry keyword, and
otherwise turned into a returned `None`.  `health n` is the state of the
database at attempt `n`.  The wrapper itself never lets an exception
escape: its result type is a plain value. -/
def safe_db_operation (okVal : StoreOp → StoreValue) (op : StoreOp)
    (health : Nat → DbHealth) : StoreValue :=
  match runStoreOp okVal op (health 0) with
  | .ok v => v
  | .error e0 =>
    if hasRetryKeyword e0 then
      match runStoreOp okVal op (health 1) with
      | .ok v => v
      | .error e1 =>
        if hasRetryKeyword e1 then
          match runStoreOp okVal op (health 2) with
          | .ok v => v
          | .error _ => .vNone
        else .vNone
    else .vNone

/-- The failure signals of the store contract: `False`, `None`, `[]`, `0`. -/
def isFailureValue : StoreValue → Bool
  | .vBool b => !b
  | .vNone => true
  | .vInt n => n == 0
  | .vList l => l.isEmpty
  | .vStr _ => false

/-! ## Pending Join Cache (GroupHandler._pending_bindings, identical in
src/handlers/qq_handler/group_handler.py lines 197-203 and
src/src/handlers/qq_handler/group_handler.py lines 330-336) -/

/-- An entry of the in-memory `_pending_bindings` dict:
`{"id": ..., "name": ..., "time": time.time()}`.  Instants are rationals
standing for the real-valued `time.time()` clock. -/
structure PendingInfo where
  id : String
  name : String
  time : ℚ
deriving Repr, DecidableEq

/-- `user_id in self._pending_bindings` / `self._pending_bindings[user_id]`. -/
def pendingLookup (pb : List (Int × PendingInfo)) (uid : Int) : Option PendingInfo :=
  (pb.find? (fun p => p.1 == uid)).map Prod.snd

/-- `self._pending_bindings.pop(user_id)`: the dict afterwards. -/
def pendingPop (pb : List (Int × PendingInfo)) (uid : Int) : List (Int × PendingInfo) :=
  pb.filter (fun p => !(p.1 == uid))

/-- `self._pending_bindings[user_id] = info`. -/
def pendingInsert (pb : List (Int × PendingInfo)) (uid : Int) (info : PendingInfo) :
    List (Int × PendingInfo) :=
  pendingPop pb uid ++ [(uid, info)]

/-- `GroupHandler._get_pending_binding_info(user_id)` at instant `now`:
if the user has an entry it is `pop`ped unconditionally, and returned
only when `time.time() - pending["time"] < 1800`; otherwise `None`.
Returns the cache afterwards together with the Python return value. -/
def get_pending_binding_info (pb : List (Int × PendingInfo)) (uid : Int) (now : ℚ) :
    List (Int × PendingInfo) × Option PendingInfo :=
  match pendingLookup pb uid with
  | some pending =>
    (pendingPop pb uid, if now - pending.time < 1800 then some pending else none)
  | none => (pb, none)

/-! ## Join-request processing
(GroupHandler._process_group_add, src/handlers/qq_handler/group_handler.py
lines 43-85; the de-duplication by request flag is lines 55-57 there and,
identically, lines 72-74 of src/src/handlers/qq_handler/group_handler.py) -/

/-- A VRChat user profile as the Game API client returns it. -/
structure VrcUser where
  id : String
  displayName : String
  tags : List String
deriving Repr, DecidableEq

/-- Outbound chat actions `_process_group_add` can issue. -/
inductive Action where
  | approve : String → String → Action
  | reject : String → String → Option String → Action
deriving Repr, DecidableEq

/-- Count of approve/reject actions in an action list. -/
def countDecisions (acts : List Action) : Nat := acts.length

/-- The read-only collaborators of the handler: configuration values,
message templates, the binding store (healthy, behind its read methods)
and the VRChat client.  VRChat network calls can raise
(`Except Unit`), which the source catches only inside
`_try_auto_reconnect`. -/
structure BotEnv where
  auto_approve_group_request : Bool
  reject_no_user_tpl : String
  reject_already_bound : Int → String
  reject_no_group_tpl : String
  reject_troll_tpl : String
  check_occupy : Bool
  vrc_group_id : Option String
  check_group_membership : Bool
  check_troll : Bool
  get_binding : Int → Option (String × String)
  get_qq_by_vrc_id : String → Option Int
  vrc_get_user : String → Except Unit (Option VrcUser)
  vrc_search_user : String → Except Unit (List VrcUser)
  vrc_get_group_member : String → String → Except Unit Bool

/-- The handler's own mutable state: `self._handled_flags` (a set,
modelled as the list of its elements) and `self._pending_bindings`. -/
structure HandlerState where
  handled_flags : List String
  pending_bindings : List (Int × PendingInfo)
deriving Repr, DecidableEq

/-- The comment prefixes `_parse_vrc_user_from_comment` strips. -/
def knownPrefixStrings : List String :=
  ["加群：", "加群:", "vrc:", "vrchat:", "我是", "昵称", "ID:"]

/-- The prefix-stripping loop of `_parse_vrc_user_from_comment`: the
first matching known prefix (case-insensitively) is cut off and the rest
stripped; `break` stops at the first match. -/
def stripKnownPrefixes (comment : String) : String :=
  match knownPrefixStrings.find? (fun p => comment.toLower.startsWith p.toLower) with
  | some p => (comment.drop p.length).trim
  | none => comment

/-- `GroupHandler._find_vrc_user(query)`: empty query resolves to nobody;
a `usr_`-id is fetched directly; otherwise search, preferring an exact
(case-insensitive) display-name match, else the first hit. -/
def find_vrc_user (env : BotEnv) (query : String) : Except Unit (Option VrcUser) :=
  if query = "" then .ok none
  else if query.startsWith "usr_" then env.vrc_get_user query
  else
    match env.vrc_search_user query with
    | .error e => .error e
    | .ok users =>
      if users.isEmpty then .ok none
      else
        match users.find? (fun u => u.displayName.toLower == query.toLower) with
        | some u => .ok (some u)
        | none => .ok users.head?

/-- `GroupHandler._try_auto_reconnect(user_id, flag, sub_type)`: a user
with an existing global binding is approved outright; the display-name
refresh from the VRChat client is inside its own `try/except`, falling
back to the stored name.  Returns the new state, the actions issued, and
the function's boolean result. -/
def try_auto_reconnect (env : BotEnv) (st : HandlerState) (user_id : Int)
    (flag sub_type : String) (now : ℚ) : HandlerState × List Action × Bool :=
  match env.get_binding user_id with
  | some (bound_vrc_id, bound_name) =>
    let display_name :=
      match env.vrc_get_user bound_vrc_id with
      | .ok (some u) => u.displayName
      | .ok none => bound_name
      | .error _ => bound_name
    ({ st with pending_bindings :=
        pendingInsert st.pending_bindings user_id ⟨bound_vrc_id, display_name, now⟩ },
      [Action.approve flag sub_type], true)
  | none => (st, [], false)

/-- `GroupHandler._check_bind_conflict(vrc_id, user_id)`: the conflicting
QQ id, if the game id is already held by a different (truthy) chat id. -/
def check_bind_conflict (env : BotEnv) (vrc_id : String) (user_id : Int) : Option Int :=
  match env.get_qq_by_vrc_id vrc_id with
  | some qq => if qq != 0 && qq != user_id then some qq else none
  | none => none

/-- `GroupHandler._check_security_policies(vrc_user, user_id)` of the
src/handlers revision (lines 150-178): occupancy check (when
`check_occupy`, default on), then VRChat group membership (when enabled
and a group id is configured — Python truthiness, so a configured empty
string disables it), then risk-tag interception; each failure returns
`(False, reason)` immediately. -/
def check_security_policies_old (env : BotEnv) (vrc_user : VrcUser) (user_id : Int) :
    Except Unit (Bool × Option String) :=
  let conflict := if env.check_occupy then check_bind_conflict env vrc_user.id user_id else none
  match conflict with
  | some qq => .ok (false, some (env.reject_already_bound qq))
  | none =>
    let gidTruthy :=
      match env.vrc_group_id with
      | some gidStr => gidStr != ""
      | none => false
    let risk : Except Unit (Bool × Option String) :=
      if env.check_troll && vrc_user.tags.contains "system_probable_troll" then
        .ok (false, some env.reject_troll_tpl)
      else .ok (true, none)
    if env.check_group_membership && gidTruthy then
      match env.vrc_get_group_member (env.vrc_group_id.getD "") vrc_user.id with
      | .error e => .error e
      | .ok is_member =>
        if !is_member then .ok (false, some env.reject_no_group_tpl)
        else risk
    else risk

/-- The join-request event fields `_process_group_add` reads. -/
structure RequestData where
  user_id : Int
  comment : String
  flag : String
  sub_type : String
deriving Repr, DecidableEq

/-- A processing run: the state afterwards, the chat actions issued, and
whether an exception escaped the handler (to be caught by the router). -/
structure RunOut where
  state : HandlerState
  acts : List Action
  exc : Bool
deriving Repr, DecidableEq

/-- `GroupHandler._process_group_add(data)` of the src/handlers revision:
pre-check the `auto_approve_group_request` feature; de-duplicate by
request flag (a flag already in `self._handled_flags` returns
immediately, and a fresh flag is recorded before any action); try the
auto-reconnect fast path; resolve the comment to a VRChat identity
(rejecting, for `sub_type == "add"` only, when unresolvable); run the
policy checks; then approve and cache the pending binding. -/
def process_group_add (env : BotEnv) (st : HandlerState) (data : RequestData)
    (now : ℚ) : RunOut :=
  let comment := data.comment.trim
  let flag := data.flag
  let sub_type := data.sub_type
  if !env.auto_approve_group_request then ⟨st, [], false⟩
  else if st.handled_flags.contains flag then ⟨st, [], false⟩
  else
    let st1 : HandlerState := { st with handled_flags := st.handled_flags ++ [flag] }
    match try_auto_reconnect env st1 data.user_id flag sub_type now with
    | (st2, acts, true) => ⟨st2, acts, false⟩
    | (st2, _, false) =>
      match find_vrc_user env (stripKnownPrefixes comment) with
      | .error _ => ⟨st2, [], true⟩
      | .ok none =>
        if sub_type = "add" then
          ⟨st2, [Action.reject flag sub_type (some env.reject_no_user_tpl)], false⟩
        else ⟨st2, [], false⟩
      | .ok (some vrc_user) =>
        match check_security_policies_old env vrc_user data.user_id with
        | .error _ => ⟨st2, [], true⟩
        | .ok (false, reason) => ⟨st2, [Action.reject flag sub_type reason], false⟩
        | .ok (true, _) =>
          let info : PendingInfo := ⟨vrc_user.id, vrc_user.displayName, now⟩
          let st3 : HandlerState :=
            { st2 with pending_bindings := pendingInsert st2.pending_bindings data.user_id info }
          ⟨st3, [Action.approve flag sub_type], false⟩

/-! ## Security-policy checks, src/src revision
(GroupHandler._check_security_policies,
src/src/handlers/qq_handler/group_handler.py lines 276-311) -/

/-- A Python exception class relevant here. -/
inductive PyErr where
  | attributeError : PyErr
deriving Repr, DecidableEq

/-- The three policy checks, for recording which were evaluated. -/
inductive CheckKind where
  | conflict | membership | risk
deriving Repr, DecidableEq

/-- The collaborators of the src/src `_check_security_policies`. -/
structure Env2 where
  check_occupy : Bool
  get_qq_by_vrc_id : String → Option Int
  reject_already_bound : Int → String

/-- What `safe_db_operation(self.bot.db.get_group_setting, group_id,
name, default)` returns as invoked by the src/src group handler: the
handler passes a third `default` argument, but every backend's
`get_group_setting` accepts only `(group_id, setting_name)`
(src/src/core/database/base.py line 184 and
src/src/core/database/sqlite_db.py line 417; the MySQL backend does not
implement it at all), so the call raises
`TypeError: get_group_setting() takes 3 positional arguments but 4 were
given` inside `safe_db_operation`, which catches every exception and —
the message carrying no retry keyword — returns `None`. -/
def safeGetGroupSettingWithDefault (_group_id : Int) (_name _dflt : String) :
    Option String :=
  none

/-- Python `x.lower()` on an `Optional[str]`: `AttributeError` on `None`. -/
def pyLowerOpt : Option String → Except PyErr String
  | some s => .ok s.toLower
  | none => .error PyErr.attributeError

/-- `GroupHandler._check_security_policies(vrc_user, user_id, group_id)`
of the src/src revision.  Step 1 (when `check_occupy`, default on) is the
conflict check, returning `(False, reason-with-owner-id)` on a hit.
Step 2 fetches `vrc_group_id` and `check_group_membership` through
`safeGetGroupSettingWithDefault` (both `None`, see there) and immediately
evaluates `check_group_setting.lower()` — an `AttributeError`, so the
source's membership check (lines 292-300) and risk check (lines 302-309)
are unreachable and are not translated further.  The second component
records which checks were evaluated, in order. -/
def check_security_policies (env : Env2) (vrc_user : VrcUser) (user_id : Int)
    (group_id : Int) : Except PyErr (Bool × Option String) × List CheckKind :=
  let conflict : Option Int :=
    if env.check_occupy then
      match env.get_qq_by_vrc_id vrc_user.id with
      | some qq => if qq != 0 && qq != user_id then some qq else none
      | none => none
    else none
  let trace0 : List CheckKind := if env.check_occupy then [CheckKind.conflict] else []
  match conflict with
  | some qq => (.ok (false, some (env.reject_already_bound qq)), trace0)
  | none =>
    let vrc_group_id_setting := safeGetGroupSettingWithDefault group_id "vrc_group_id" ""
    let check_group_setting :=
      safeGetGroupSettingWithDefault group_id "check_group_membership" "False"
    match pyLowerOpt check_group_setting with
    | .error e => (.error e, trace0)
    | .ok lowered =>
      -- unreachable: `check_group_setting` is always `None`
      (.ok (lowered == "never", vrc_group_id_setting), trace0)

/-! ## Event router (EventRouter.dispatch, src/core/event_router.py
lines 28-52) -/

/-- An inbound gateway frame, restricted to its routing-relevant fields:
the `echo` key (present with its correlation token, or absent), the
`post_type` field, and whether a `meta_event_type` key is present. -/
structure Frame where
  echo : Option String
  post_type : Option String
  has_meta_event_type : Bool
deriving Repr, DecidableEq

/-- The handler table registered by `EventRouter.__init__`. -/
def registeredPostTypes : List String := ["message", "request", "notice", "meta_event"]

/-- Modelled from the spec: `QQClient.handle_response` — the `QQClient`
revision under src/api/qq/client.py does not define the method; only its
call site in `EventRouter.dispatch` is in the source.  Per §4.1/§4.2 of
the spec, it resolves (and removes) the `Call` waiter registered under
the frame's correlation token, handing it the response frame; a token
with no registered waiter (e.g. a timed-out call) resolves nothing. -/
def handle_response (waiters : List (String × Nat)) (tok : String) (f : Frame) :
    List (String × Nat) × Option (Nat × Frame) :=
  match (waiters.find? (fun w => w.1 == tok)).map Prod.snd with
  | some wid => (waiters.filter (fun w => !(w.1 == tok)), some (wid, f))
  | none => (waiters, none)

/-- The outcome of one `dispatch` call: the waiter table afterwards, the
correlation delivery made (waiter id and frame), and the event handler
invoked (by its `post_type`). -/
structure DispatchOut where
  waiters : List (String × Nat)
  resolved : Option (Nat × Frame)
  handler : Option String
deriving Repr, DecidableEq

/-- `EventRouter.dispatch(data)`: a frame with an `echo` key goes to
`qq_client.handle_response` and returns; otherwise `post_type` is read
(falling back to `"meta_event"` when absent-or-falsy but a
`meta_event_type` key exists), and the registered handler for it, if any,
is invoked. -/
def dispatch (waiters : List (String × Nat)) (f : Frame) : DispatchOut :=
  match f.echo with
  | some tok =>
    let out := handle_response waiters tok f
    ⟨out.1, out.2, none⟩
  | none =>
    let post_type : Option String :=
      match f.post_type with
      | some p =>
        if p == "" then (if f.has_meta_event_type then some "meta_event" else none)
        else some p
      | none => if f.has_meta_event_type then some "meta_event" else none
    match post_type with
    | none => ⟨waiters, none, none⟩
    | some p => ⟨waiters, none, if registeredPostTypes.contains p then some p else none⟩

/-! ## Gateway websocket manager (QQWebSocketManager,
src/api/qq/websocket.py) -/

/-- The connection settings stored by `QQWebSocketManager.__init__`
(lines 20-25): `kwargs.get("max_retries", 10)`,
`kwargs.get("initial_delay", 5.0)`, `kwargs.get("max_delay", 60.0)`. -/
structure WSConfig where
  max_retries : Nat
  initial_delay : ℚ
  max_delay : ℚ
deriving Repr, DecidableEq

/-- The defaults of `QQWebSocketManager.__init__`. -/
def wsDefaultConfig : WSConfig := ⟨10, 5, 60⟩

/-- Whether the single underlying `bot.run()`/`bot.start()` call
succeeds. -/
inductive ConnectOutcome where
  | success
  | failure : String → ConnectOutcome
deriving Repr, DecidableEq

/-- Observable behaviour of one `connect()` call: how many connection
attempts were made, which delays were slept between attempts, and whether
the call raised. -/
structure ConnectRun where
  attempts : Nat
  sleeps : List ℚ
  raised : Bool
deriving Repr, DecidableEq

/-- `QQWebSocketManager.connect()` (src/api/qq/websocket.py lines 44-82):
registers the message callback and starts the bot once; on any exception
it logs and re-raises.  The function contains no loop, no sleep and no
second attempt, and the stored `max_retries`/`initial_delay`/`max_delay`
fields are never read — neither here nor anywhere else in the class. -/
def connect : ConnectOutcome → ConnectRun
  | .success => ⟨1, [], false⟩
  | .failure _ => ⟨1, [], true⟩

/-- The reconnect-delay formula the claim (spec §4.1) prescribes:
`delay = min(initial_delay * 2^retries, max_delay)`. -/
def claimedBackoffDelay (cfg : WSConfig) (retries : Nat) : ℚ :=
  min (cfg.initial_delay * 2 ^ retries) cfg.max_delay

/-! ## Claim theorems -/

/-- C1.  The claim says a `bind_user` call naming a game account id
already held by a different chat account id fails and leaves the existing
owner's binding row unchanged.  The code contradicts it: with
`global_bindings = [qq 1 ↦ usr_9 (Alice)]`, the call
`bind_user(2, "usr_9", "Bob")` returns `True` and, because
`INSERT OR REPLACE` deletes the row conflicting on the
`vrc_user_id UNIQUE` constraint, chat account 1's row is deleted and
`usr_9` is silently transferred to chat account 2. -/
theorem bind_user_conflict_overwrites_owner :
    (bind_user ⟨[⟨1, "usr_9", "Alice", "2025-10-11 09:00:00", "manual", none⟩], [], [], []⟩
        2 "usr_9" "Bob" "manual" none "2025-10-12 10:00:00").2 = true ∧
    (bind_user ⟨[⟨1, "usr_9", "Alice", "2025-10-11 09:00:00", "manual", none⟩], [], [], []⟩
        2 "usr_9" "Bob" "manual" none "2025-10-12 10:00:00").1.global_bindings =
      [⟨2, "usr_9", "Bob", "2025-10-12 10:00:00", "manual", none⟩] := by
  exact ⟨rfl, rfl⟩

/-- C2.  Group-scope independence of `unbind_user_from_group(G, qq)`:
for any other group `H ≠ G` the H table is untouched, the
`global_verifications` and `verifications` tables are untouched, the
G table loses exactly the rows of that chat account, and every
`global_bindings` row is either unchanged or — only for that account and
only when its `origin_group_id` equals `G` — has just its
`origin_group_id` cleared. -/
theorem unbind_from_group_frame (s : SQLiteState) (G H qq : Int) (hne : H ≠ G) :
    findGroupTable (unbind_user_from_group s G qq).1 H = findGroupTable s H ∧
    (unbind_user_from_group s G qq).1.global_verifications = s.global_verifications ∧
    (unbind_user_from_group s G qq).1.verifications = s.verifications ∧
    (findGroupTable (unbind_user_from_group s G qq).1 G).getD [] =
      ((findGroupTable s G).getD []).filter (fun r => !(r.qq_id == qq)) ∧
    (unbind_user_from_group s G qq).1.global_bindings = s.global_bindings.map (fun r =>
      if r.qq_id == qq && r.origin_group_id == some G then
        { r with origin_group_id := none }
      else r) := by
  unfold unbind_user_from_group
  simp only
  refine ⟨?_, ?_, ?_, ?_, ?_⟩
  · show lookupTable (writeGroupTable (ensure_group_table s G).group_tables G _) H = _
    rw [lookupTable_write_ne hne]
    exact findGroupTable_ensure_ne hne
  · show (ensure_group_table s G).global_verifications = s.global_verifications
    unfold ensure_group_table
    cases findGroupTable s G <;> rfl
  · show (ensure_group_table s G).verifications = s.verifications
    unfold ensure_group_table
    cases findGroupTable s G <;> rfl
  · show (Option.getD (lookupTable (writeGroupTable (ensure_group_table s G).group_tables G _) G) []) = _
    have hself := findGroupTable_ensure_self s G
    unfold findGroupTable at hself
    rw [lookupTable_write_self hself]
    simp only [findGroupTable, Option.getD_some, hself]
  · show ((ensure_group_table s G).global_bindings.map _) = _
    unfold ensure_group_table
    cases findGroupTable s G <;> rfl

/-- Closed witness for `unbind_from_group_frame` at a concrete state:
account 100 is bound in groups 5 and 7 with its global row originating
from group 5, and is globally verified. -/
theorem unbind_from_group_frame_witness :
    (7 : Int) ≠ 5 ∧
    (findGroupTable
        (unbind_user_from_group
          ⟨[⟨100, "usr_1", "Alice", "t0", "verified", some 5⟩],
           [(5, [⟨100, "usr_1", "Alice", "t0"⟩]), (7, [⟨100, "usr_1", "Alice", "t1"⟩])],
           [], [⟨100, "usr_1", "Alice", "t0", "verified"⟩]⟩ 5 100).1 7 =
      findGroupTable
        ⟨[⟨100, "usr_1", "Alice", "t0", "verified", some 5⟩],
         [(5, [⟨100, "usr_1", "Alice", "t0"⟩]), (7, [⟨100, "usr_1", "Alice", "t1"⟩])],
         [], [⟨100, "usr_1", "Alice", "t0", "verified"⟩]⟩ 7) := by
  have h := unbind_from_group_frame
    ⟨[⟨100, "usr_1", "Alice", "t0", "verified", some 5⟩],
     [(5, [⟨100, "usr_1", "Alice", "t0"⟩]), (7, [⟨100, "usr_1", "Alice", "t1"⟩])],
     [], [⟨100, "usr_1", "Alice", "t0", "verified"⟩]⟩ 5 7 100 (by decide)
  exact ⟨by decide, h.1⟩

/-- C3.  The verification-TTL claim says any expiry check strictly after
`T + ttl` reports the record expired — including the scheduler's
`expire_outdated_verifications` sweep.  The code contradicts it for the
sweep: a record created at "2025-10-12 00:00:00" (epoch 1760227200),
swept at epoch 1760313600 (a full day later) with a TTL of 300 s, is left
unexpired with row count 0, because the `WHERE created_at < ?` clause
compares the `TEXT` timestamp with the decimal epoch string
`str(cutoff_time) = "1760313300.0"` bytewise and `'2' > '1'`.  The same
read-side arithmetic (`elapsed` from `get_verification`) shows the record
is 86400 seconds old, far beyond the TTL. -/
theorem expiry_sweep_misses_outdated_record :
    expire_outdated_verifications
        ⟨[], [], [⟨100, "usr_1", "Alice", "654321", "2025-10-12 00:00:00", false⟩], []⟩
        1760313600 300 =
      (⟨[], [], [⟨100, "usr_1", "Alice", "654321", "2025-10-12 00:00:00", false⟩], []⟩, 0) ∧
    verificationElapsed ⟨100, "usr_1", "Alice", "654321", "2025-10-12 00:00:00", false⟩
        1760313600 = 86400 ∧
    (300 : Int) < 86400 := by
  refine ⟨by decide, by decide, by decide⟩

/-- A popped user is no longer in the cache, whatever the list was. -/
theorem pendingLookup_pop (pb : List (Int × PendingInfo)) (uid : Int) :
    pendingLookup (pendingPop pb uid) uid = none := by
  induction pb with
  | nil => rfl
  | cons a t ih =>
    cases a with
    | mk k v =>
      by_cases hk : k = uid
      · simp only [pendingPop, List.filter]
        have : (!(k == uid)) = false := by simp [hk]
        rw [this]
        exact ih
      · simp only [pendingPop, List.filter]
        have : (!(k == uid)) = true := by simp [hk]
        rw [this]
        simp only [pendingLookup, List.find?]
        have : ((k, v).1 == uid) = false := by simp [hk]
        rw [this]
        exact ih

/-- C8.  Store error signalling: whenever the underlying database fails on
every attempt, a handler-level call through `safe_db_operation` receives
one of the failure values `False`, `None`, `[]`, `0` — by the very type of
`safe_db_operation` no exception can reach the handler, and this theorem
shows the value received is a failure signal, for every store operation
and every failure message. -/
theorem store_failure_yields_failure_value (okVal : StoreOp → StoreValue)
    (op : StoreOp) (health : Nat → DbHealth)
    (hfail : ∀ n, health n ≠ DbHealth.healthy) :
    isFailureValue (safe_db_operation okVal op health) = true := by
  rcases hH0 : health 0 with _ | m0
  · exact absurd hH0 (hfail 0)
  rcases hH1 : health 1 with _ | m1
  · exact absurd hH1 (hfail 1)
  rcases hH2 : health 2 with _ | m2
  · exact absurd hH2 (hfail 2)
  cases op <;>
    simp only [safe_db_operation, runStoreOp, hH0, hH1, hH2] <;>
    (try split_ifs) <;>
    simp [isFailureValue]

/-- Closed witness for `store_failure_yields_failure_value`: the unguarded
getter `get_qq_by_vrc_id` against a permanently failing database. -/
theorem store_failure_yields_failure_value_witness :
    isFailureValue (safe_db_operation (fun _ => StoreValue.vNone)
      StoreOp.get_qq_by_vrc_id (fun _ => DbHealth.failing "disk I/O error")) = true :=
  store_failure_yields_failure_value (fun _ => StoreValue.vNone)
    StoreOp.get_qq_by_vrc_id (fun _ => DbHealth.failing "disk I/O error")
    (fun _ h => by cases h)

/-- C9.  Pending Join Cache TTL: when account `uid` has a cached entry
`info`, a lookup at or after `info.time + 1800` returns no entry, and a
lookup strictly before `info.time + 1800` returns the cached identity. -/
theorem pending_cache_ttl (pb : List (Int × PendingInfo)) (uid : Int)
    (info : PendingInfo) (now : ℚ) (hfound : pendingLookup pb uid = some info) :
    (info.time + 1800 ≤ now → (get_pending_binding_info pb uid now).2 = none) ∧
    (now < info.time + 1800 → (get_pending_binding_info pb uid now).2 = some info) := by
  unfold get_pending_binding_info
  rw [hfound]
  constructor
  · intro hle
    have : ¬(now - info.time < 1800) := by linarith
    simp [this]
  · intro hlt
    have : now - info.time < 1800 := by linarith
    simp [this]

/-- Closed witness for `pending_cache_ttl`: an entry cached at instant
1000 is gone at instant 2800 (= 1000 + 1800) and still present at 2799. -/
theorem pending_cache_ttl_witness :
    (get_pending_binding_info [(100, ⟨"usr_1", "Alice", 1000⟩)] 100 2800).2 = none ∧
    (get_pending_binding_info [(100, ⟨"usr_1", "Alice", 1000⟩)] 100 2799).2 =
      some ⟨"usr_1", "Alice", 1000⟩ := by
  constructor
  · exact (pending_cache_ttl [(100, ⟨"usr_1", "Alice", 1000⟩)] 100
      ⟨"usr_1", "Alice", 1000⟩ 2800 (by norm_num [pendingLookup, List.find?])).1
      (by norm_num)
  · exact (pending_cache_ttl [(100, ⟨"usr_1", "Alice", 1000⟩)] 100
      ⟨"usr_1", "Alice", 1000⟩ 2799 (by norm_num [pendingLookup, List.find?])).2
      (by norm_num)

/-- C10.  Pending Join Cache reads are destructive: after any lookup the
account's entry is absent from the cache — whether or not it was returned
or already past its TTL — so a second lookup with no intervening insert
always returns no entry. -/
theorem pending_cache_read_destructive (pb : List (Int × PendingInfo)) (uid : Int)
    (now now2 : ℚ) :
    pendingLookup (get_pending_binding_info pb uid now).1 uid = none ∧
    (get_pending_binding_info (get_pending_binding_info pb uid now).1 uid now2).2 = none := by
  unfold get_pending_binding_info
  cases hfound : pendingLookup pb uid with
  | some pending =>
    simp only
    have hgone := pendingLookup_pop pb uid
    exact ⟨hgone, by rw [hgone]⟩
  | none =>
    simp only
    exact ⟨hfound, by rw [hfound]⟩

/-- `_try_auto_reconnect` never touches `self._handled_flags`. -/
theorem try_auto_reconnect_handled (env : BotEnv) (st : HandlerState) (uid : Int)
    (flag sub_type : String) (now : ℚ) :
    (try_auto_reconnect env st uid flag sub_type now).1.handled_flags = st.handled_flags := by
  unfold try_auto_reconnect
  cases env.get_binding uid with
  | some p => cases p with | mk a b => rfl
  | none => rfl

/-- `_try_auto_reconnect` issues at most one chat action. -/
theorem try_auto_reconnect_acts (env : BotEnv) (st : HandlerState) (uid : Int)
    (flag sub_type : String) (now : ℚ) :
    (try_auto_reconnect env st uid flag sub_type now).2.1.length ≤ 1 := by
  unfold try_auto_reconnect
  cases env.get_binding uid with
  | some p => cases p with | mk a b => simp
  | none => simp

/-- With the auto-approve feature off, `_process_group_add` does nothing. -/
theorem process_group_add_disabled (env : BotEnv) (st : HandlerState)
    (data : RequestData) (now : ℚ)
    (hauto : env.auto_approve_group_request = false) :
    process_group_add env st data now = ⟨st, [], false⟩ := by
  simp only [process_group_add]
  rw [if_pos (by simp [hauto])]

/-- A flag already recorded in `self._handled_flags` makes
`_process_group_add` return immediately: no state change, no action. -/
theorem process_group_add_seen_flag (env : BotEnv) (st : HandlerState)
    (data : RequestData) (now : ℚ)
    (hflag : st.handled_flags.contains data.flag = true)
    (hauto : env.auto_approve_group_request = true) :
    process_group_add env st data now = ⟨st, [], false⟩ := by
  simp only [process_group_add]
  rw [if_neg (by simp [hauto]), if_pos hflag]

/-- After a run that got past the pre-check on a fresh flag, the flag set
is exactly the old one extended with that flag: every branch of
`_process_group_add` records the flag first and never touches the set
again. -/
theorem process_group_add_records_flag (env : BotEnv) (st : HandlerState)
    (data : RequestData) (now : ℚ)
    (hauto : env.auto_approve_group_request = true)
    (hnew : st.handled_flags.contains data.flag = false) :
    (process_group_add env st data now).state.handled_flags =
      st.handled_flags ++ [data.flag] := by
  simp only [process_group_add]
  rw [if_neg (by simp [hauto]), if_neg (by rw [hnew]; exact Bool.false_ne_true)]
  have h := try_auto_reconnect_handled env
    { st with handled_flags := st.handled_flags ++ [data.flag] }
    data.user_id data.flag data.sub_type now
  split
  case _ x st2 acts heq =>
    rw [heq] at h
    exact h
  case _ x st2 acts heq =>
    rw [heq] at h
    split
    · exact h
    · split
      · exact h
      · exact h
    · split
      · exact h
      · exact h
      · exact h

/-- A single `_process_group_add` run issues at most one approve/reject. -/
theorem process_group_add_acts_le_one (env : BotEnv) (st : HandlerState)
    (data : RequestData) (now : ℚ) :
    countDecisions (process_group_add env st data now).acts ≤ 1 := by
  by_cases hauto : env.auto_approve_group_request
  · by_cases hflag : st.handled_flags.contains data.flag
    · rw [process_group_add_seen_flag env st data now hflag hauto]
      simp [countDecisions]
    · unfold countDecisions
      simp only [process_group_add]
      rw [if_neg (by simp [hauto]), if_neg hflag]
      have h := try_auto_reconnect_acts env
        { st with handled_flags := st.handled_flags ++ [data.flag] }
        data.user_id data.flag data.sub_type now
      split
      case _ x st2 acts heq =>
        rw [heq] at h
        exact h
      case _ x st2 acts heq =>
        split
        · simp
        · split
          · simp
          · simp
        · split
          · simp
          · simp
          · simp
  · rw [process_group_add_disabled env st data now (by simpa using hauto)]
    simp [countDecisions]

/-- C4.  Idempotent join-request handling: replaying any join-request
event leaves the handler state exactly where the first delivery left it,
issues no chat action and no exception on the second delivery, and a
single delivery issues at most one approve/reject -- so across any two
deliveries of the same flag the side effects are exactly those of the
first delivery, with at most one approve or reject in total. -/
theorem process_group_add_replay_noop (env : BotEnv) (st : HandlerState)
    (data : RequestData) (now now2 : ℚ) :
    (process_group_add env (process_group_add env st data now).state data now2).state =
      (process_group_add env st data now).state ∧
    (process_group_add env (process_group_add env st data now).state data now2).acts = [] ∧
    (process_group_add env (process_group_add env st data now).state data now2).exc = false ∧
    countDecisions (process_group_add env st data now).acts ≤ 1 := by
  have hsecond : process_group_add env (process_group_add env st data now).state data now2 =
      ⟨(process_group_add env st data now).state, [], false⟩ := by
    by_cases hauto : env.auto_approve_group_request
    · have hmem : (process_group_add env st data now).state.handled_flags.contains
          data.flag = true := by
        by_cases hflag : st.handled_flags.contains data.flag
        · rw [process_group_add_seen_flag env st data now hflag hauto]
          exact hflag
        · rw [process_group_add_records_flag env st data now hauto (by simpa using hflag)]
          simp
      exact process_group_add_seen_flag env _ data now2 hmem hauto
    · exact process_group_add_disabled env _ data now2 (by simpa using hauto)
  rw [hsecond]
  exact ⟨rfl, rfl, rfl, process_group_add_acts_le_one env st data now⟩

/-- C5.  Policy-check order in the src/src `_check_security_policies`.
The conflict check does run first and does short-circuit with its
owner-naming reason (first conjunct: game id `usr_9` is held by chat
account 1, so account 2 is rejected with a reason naming 1, and neither
the membership nor the risk check is evaluated).  But the claim fails
beyond that: whenever the conflict check passes (second conjunct, an
unclaimed game id), the function raises `AttributeError` — the settings
lookup feeding the membership check returns `None` because
`get_group_setting` is called with an extra default argument — so the
membership and risk checks are never evaluated and no rejection reason is
ever produced for them. -/
theorem check_security_policies_conflict_then_crash :
    check_security_policies
        ⟨true, fun v => if v == "usr_9" then some 1 else none,
          fun qq => "VRC账号已被QQ" ++ toString qq ++ "绑定"⟩
        ⟨"usr_9", "Alice", []⟩ 2 42 =
      (.ok (false, some "VRC账号已被QQ1绑定"), [CheckKind.conflict]) ∧
    check_security_policies
        ⟨true, fun v => if v == "usr_9" then some 1 else none,
          fun qq => "VRC账号已被QQ" ++ toString qq ++ "绑定"⟩
        ⟨"usr_7", "Bob", []⟩ 2 42 =
      (.error PyErr.attributeError, [CheckKind.conflict]) := by
  exact ⟨rfl, rfl⟩

/-- C6.  Correlated-response routing: a frame carrying an `echo` token is
never handed to the message/notice/request handlers and resolves the
waiter registered under its token with the frame itself; a frame without
an `echo` token never reaches the correlation path and leaves the waiter
table untouched. -/
theorem dispatch_routes_correlated_frames (waiters : List (String × Nat)) (f : Frame) :
    (∀ tok, f.echo = some tok →
      (dispatch waiters f).handler = none ∧
      (∀ wid, (waiters.find? (fun w => w.1 == tok)).map Prod.snd = some wid →
        (dispatch waiters f).resolved = some (wid, f))) ∧
    (f.echo = none →
      (dispatch waiters f).resolved = none ∧ (dispatch waiters f).waiters = waiters) := by
  constructor
  · intro tok htok
    constructor
    · simp only [dispatch, htok]
    · intro wid hwid
      simp only [dispatch, htok, handle_response, hwid]
  · intro hnone
    refine ⟨?_, ?_⟩ <;>
    · simp only [dispatch, hnone]
      split <;> rfl

/-- Closed witness for `dispatch_routes_correlated_frames`: a response
frame with token "e1" resolves waiter 7 and reaches no handler, and an
ordinary message frame resolves nothing. -/
theorem dispatch_routes_correlated_frames_witness :
    (dispatch [("e1", 7)] ⟨some "e1", some "message", false⟩).handler = none ∧
    (dispatch [("e1", 7)] ⟨some "e1", some "message", false⟩).resolved =
      some (7, ⟨some "e1", some "message", false⟩) ∧
    (dispatch [("e1", 7)] ⟨none, some "message", false⟩).resolved = none := by
  have h := dispatch_routes_correlated_frames [("e1", 7)] ⟨some "e1", some "message", false⟩
  have h2 := dispatch_routes_correlated_frames [("e1", 7)] ⟨none, some "message", false⟩
  exact ⟨(h.1 "e1" rfl).1, (h.1 "e1" rfl).2 7 rfl, (h2.2 rfl).1⟩

/-- C7.  Reconnect backoff: the claim says each read/connect failure is
retried after `min(initial_delay * 2^retries, max_delay)` seconds, up to
`max_retries` attempts.  The code contradicts it: `connect()` makes
exactly one attempt, sleeps no delay, and re-raises on failure — although
the stored defaults prescribe a first backoff delay of
`min(5.0 * 2^0, 60.0) = 5` seconds, no such delay (and no retry) ever
happens. -/
theorem connect_performs_no_backoff_retry (msg : String) :
    (connect (ConnectOutcome.failure msg)).attempts = 1 ∧
    (connect (ConnectOutcome.failure msg)).sleeps = [] ∧
    (connect (ConnectOutcome.failure msg)).raised = true ∧
    claimedBackoffDelay wsDefaultConfig 0 = 5 := by
  refine ⟨rfl, rfl, rfl, ?_⟩
  norm_num [claimedBackoffDelay, wsDefaultConfig]

end QVB
